import Mathlib

/-!
Verification of `message_ix_models.testing` and the `Context` behaviour exercised by
`message_ix_models/tests/util/test_context.py`.

The embedding models the repository's own code directly.  External collaborators
(click's invocation harness, pytest fixture scheduling, the ixmp platform, Excel I/O)
are parameters of the definitions; parts of the repository that are referenced but not
present in the sources (the `Context` class itself, `preserve_log_level`) are modelled
from the specification and marked as such in their doc comments.
-/

/-- A Python exception value: its class name, either on its own or with another
exception chained as its `__context__` attribute (the implicit chaining slot). -/
inductive PyExc where
  | base (cls : String)
  | chained (cls : String) (ctx : PyExc)
deriving DecidableEq

/-- The `__context__` attribute of an exception (`none` models Python's `None`). -/
def PyExc.context : PyExc → Option PyExc
  | .base _ => none
  | .chained _ c => some c

/-- The class name of an exception. -/
def PyExc.cls : PyExc → String
  | .base n => n
  | .chained n _ => n

/-- A `click.testing.Result` as consumed by `testing.py`: the exit code and
`exc_info[1]`, the exception captured by the harness during the invocation
(`none` when the harness captured nothing). -/
structure CliResult where
  exit_code : Int
  exc_info : Option PyExc
deriving DecidableEq

/-- The state visible to the `CliRunner` methods: the process-global logging level and
the `last_result` attribute.  `last_result` is `none` while the attribute is unbound,
which is the case until the first call to `invoke` assigns it. -/
structure RunnerState where
  log_level : Nat
  last_result : Option CliResult
deriving DecidableEq

/-- A fresh `CliRunner`: neither `click.testing.CliRunner.__init__` nor the subclass
binds `last_result`, so the attribute is unbound. -/
def CliRunner.init (lvl : Nat) : RunnerState :=
  { log_level := lvl, last_result := none }

/-- Modelled from the spec: `preserve_log_level` (from `message_ix_models.util._logging`,
whose source is not under `src/`) wraps a call so that any change the wrapped call makes
to the global log level is reverted afterward, regardless of success or failure.  A call
under test is a function from the current log level to the new log level and a value. -/
def preserve_log_level (f : Nat → Nat × α) : Nat → Nat × α :=
  fun lvl => (lvl, (f lvl).2)

/-- `CliRunner.invoke` (testing.py lines 105-113): runs the underlying click invocation
`cmd` wrapped in `preserve_log_level`, stores the result in `last_result`, and returns
it.  `cmd` stands for `super().invoke(cli.main, *args, **kwargs)`, which always returns
a `Result`, capturing any exception raised inside the command. -/
def CliRunner.invoke (cmd : Nat → Nat × CliResult) (s : RunnerState) :
    CliResult × RunnerState :=
  let step := preserve_log_level cmd s.log_level
  (step.2, { log_level := step.1, last_result := some step.2 })

/-- Outcome of a `raise` escaping a method, as distinguished by the embedding. -/
inductive PyError where
  /-- `AttributeError`: reading an attribute that was never bound. -/
  | attributeError (attr : String)
  /-- `TypeError`: subscripting `None` or raising `None`. -/
  | typeError
  /-- An exception object re-raised by a `raise` statement. -/
  | raised (e : PyExc)
deriving DecidableEq

/-- `CliRunner.assert_exit_0` (testing.py lines 115-140): when any arguments are given,
`invoke` is called with them first; then `last_result` is read (an unbound attribute
raises `AttributeError`); a non-zero exit code re-raises
`last_result.exc_info[1].__context__` (subscripting a `None` `exc_info`, or raising a
`None` context, is a `TypeError`); otherwise the stored result is returned. -/
def CliRunner.assert_exit_0 (args : Option (Nat → Nat × CliResult)) (s : RunnerState) :
    Except PyError (CliResult × RunnerState) :=
  let s1 := match args with
    | some cmd => (CliRunner.invoke cmd s).2
    | none => s
  match s1.last_result with
  | none => .error (.attributeError "last_result")
  | some r =>
    if r.exit_code ≠ 0 then
      match r.exc_info with
      | none => .error .typeError
      | some e =>
        match e.context with
        | none => .error .typeError
        | some orig => .error (.raised orig)
    else
      .ok (r, s1)

/-- Modelled from the spec: under click's standalone-mode harness, a command whose
implementation raises `orig` terminates the invocation with a non-zero exit code, and
the exception captured in `exc_info[1]` is the `SystemExit` raised by click's
error-handling, carrying `orig` as its `__context__`. -/
def raisesInside (cmd : Nat → Nat × CliResult) (orig : PyExc) : Prop :=
  ∀ lvl, (cmd lvl).2.exit_code ≠ 0 ∧
    (cmd lvl).2.exc_info = some (PyExc.chained "SystemExit" orig)

/-- Claim C1: `assert_exit_0` with arguments first calls `invoke` with them, and with
none uses the result stored by the most recent `invoke`; a non-zero exit code re-raises
the original exception captured during the CLI invocation (the very exception the
command raised, not a synthetic assertion error); a zero exit code returns the stored
result. -/
theorem assert_exit_0_spec (cmd : Nat → Nat × CliResult) (s : RunnerState)
    (orig : PyExc) (r : CliResult)
    (hc : raisesInside cmd orig) (hs : s.last_result = some r) (hr : r.exit_code = 0) :
    CliRunner.assert_exit_0 (some cmd) s =
      CliRunner.assert_exit_0 none (CliRunner.invoke cmd s).2 ∧
    CliRunner.assert_exit_0 (some cmd) s = .error (.raised orig) ∧
    CliRunner.assert_exit_0 none s = .ok (r, s) := by
  obtain ⟨hcode, hexc⟩ := hc s.log_level
  refine ⟨rfl, ?_, ?_⟩
  · simp [CliRunner.assert_exit_0, CliRunner.invoke, preserve_log_level, hexc, hcode,
      PyExc.context]
  · simp [CliRunner.assert_exit_0, hs, hr]

/-- A sample failing command: it changes the log level and its result carries a
captured `SystemExit` chaining a `ValueError` raised by the implementation. -/
def cmdFailSample : Nat → Nat × CliResult :=
  fun lvl => (lvl + 10,
    { exit_code := 1,
      exc_info := some (PyExc.chained "SystemExit" (PyExc.base "ValueError")) })

/-- A sample runner state whose stored result has exit code 0. -/
def stateOkSample : RunnerState :=
  { log_level := 30, last_result := some { exit_code := 0, exc_info := none } }

/-- Concrete instance discharging the hypotheses of `assert_exit_0_spec`. -/
theorem assert_exit_0_spec_witness :
    CliRunner.assert_exit_0 (some cmdFailSample) stateOkSample =
      CliRunner.assert_exit_0 none (CliRunner.invoke cmdFailSample stateOkSample).2 ∧
    CliRunner.assert_exit_0 (some cmdFailSample) stateOkSample =
      .error (.raised (PyExc.base "ValueError")) ∧
    CliRunner.assert_exit_0 none stateOkSample =
      .ok ({ exit_code := 0, exc_info := none }, stateOkSample) :=
  assert_exit_0_spec cmdFailSample stateOkSample (PyExc.base "ValueError")
    { exit_code := 0, exc_info := none }
    (fun _ => ⟨by simp [cmdFailSample], rfl⟩) rfl rfl

/-- Claim C2: every call to `invoke` restores the global log level that was in force
before the call, whatever the invoked command did to it and whether the invocation
succeeded or failed, and stores the invocation result in `last_result`. -/
theorem invoke_restores_log_level (cmd : Nat → Nat × CliResult) (s : RunnerState) :
    (CliRunner.invoke cmd s).2.log_level = s.log_level ∧
    (CliRunner.invoke cmd s).2.last_result = some (CliRunner.invoke cmd s).1 := by
  constructor <;> rfl

/-- Claim C10: calling `assert_exit_0` with no arguments on a fresh runner, before any
call to `invoke`, raises `AttributeError`, because `last_result` is only assigned
inside `invoke`. -/
theorem assert_exit_0_before_invoke (lvl : Nat) :
    CliRunner.assert_exit_0 none (CliRunner.init lvl) =
      .error (.attributeError "last_result") := rfl

/-- A platform registration entry as written by `session_context` into
`ixmp_config.values["platform"]`: the `"class"`, `"driver"` and `"url"` keys
(the `class` key is spelled `cls` here because `class` is reserved in Lean). -/
structure PlatformEntry where
  cls : String
  driver : String
  url : String
deriving DecidableEq

/-- The fixed test-only platform name used by `session_context` (line 59). -/
def platform_name : String := "message-ix-models"

/-- The registration entry written by `session_context` (lines 65-69). -/
def test_platform_entry : PlatformEntry :=
  { cls := "jdbc", driver := "hsqldb", url := "jdbc:hsqldb:mem://" ++ platform_name }

/-- Observable actions of a test session around the `session_context` fixture. -/
inductive SessionEvent where
  /-- Writing an entry into the process-wide platform registry. -/
  | registerPlatform (name : String) (entry : PlatformEntry)
  /-- `Platform(...)` plus `mp.open_db()`. -/
  | openDb (name : String)
  /-- `ctx.close_db()`. -/
  | closeDb
  /-- `ixmp_config.remove_platform(name)`. -/
  | removePlatform (name : String)
  /-- One test function running against the session (passed or failed). -/
  | testRun (passed : Bool)
deriving DecidableEq

/-- The actions of `session_context` before its `yield` (testing.py lines 59-75). -/
def session_context_setup : List SessionEvent :=
  [.registerPlatform platform_name test_platform_entry, .openDb platform_name]

/-- The actions of `session_context` after its `yield` (testing.py lines 79-80). -/
def session_context_teardown : List SessionEvent :=
  [.closeDb, .removePlatform platform_name]

/-- Modelled from the spec: pytest runs a session-scoped yielding fixture's setup code
exactly once per session, then the tests (each passing or failing), then the code after
the `yield` exactly once, even when tests fail. -/
def sessionTrace (tests : List Bool) : List SessionEvent :=
  session_context_setup ++ tests.map SessionEvent.testRun ++ session_context_teardown

/-- Whether an event registers a platform under `name`. -/
def SessionEvent.isRegister (name : String) : SessionEvent → Bool
  | .registerPlatform n _ => n == name
  | _ => false

/-- Whether an event removes the platform registration under `name`. -/
def SessionEvent.isRemove (name : String) : SessionEvent → Bool
  | .removePlatform n => n == name
  | _ => false

/-- Whether an event closes the database connection. -/
def SessionEvent.isClose : SessionEvent → Bool
  | .closeDb => true
  | _ => false

/-- Claim C3: in every session, whatever the number and outcomes of its tests, the
fixed-name platform registration is created exactly once (during setup, which also
opens the connection) and removed exactly once (during teardown, which also closes the
connection exactly once), the removal coming after every test. -/
theorem session_registration_balanced (tests : List Bool) :
    (sessionTrace tests).countP (SessionEvent.isRegister platform_name) = 1 ∧
    (sessionTrace tests).countP (SessionEvent.isRemove platform_name) = 1 ∧
    (sessionTrace tests).countP SessionEvent.isClose = 1 ∧
    sessionTrace tests =
      [SessionEvent.registerPlatform platform_name test_platform_entry,
        SessionEvent.openDb platform_name] ++ tests.map SessionEvent.testRun ++
        [SessionEvent.closeDb, SessionEvent.removePlatform platform_name] := by
  have hzero : ∀ p : SessionEvent → Bool, (∀ b, p (SessionEvent.testRun b) = false) →
      (tests.map SessionEvent.testRun).countP p = 0 := by
    intro p hp
    rw [List.countP_eq_zero]
    intro e he
    obtain ⟨b, _, rfl⟩ := List.mem_map.mp he
    simp [hp b]
  have h1 := hzero (SessionEvent.isRegister platform_name) (fun _ => rfl)
  have h2 := hzero (SessionEvent.isRemove platform_name) (fun _ => rfl)
  have h3 := hzero SessionEvent.isClose (fun _ => rfl)
  refine ⟨?_, ?_, ?_, rfl⟩ <;>
    simp [sessionTrace, session_context_setup, session_context_teardown,
      List.countP_append, h1, h2, h3, SessionEvent.isRegister,
      SessionEvent.isRemove, SessionEvent.isClose, List.countP_cons]

/-- A filesystem path, as the list of its components. -/
abbrev FsPath := List String

/-- `pathlib.Path.joinpath`: appends components to a path. -/
def joinpath (p : FsPath) (parts : List String) : FsPath := p ++ parts

/-- A pytest command-line option as registered through `parser.addoption`. -/
structure PytestOption where
  name : String
  /-- Whether the option was registered with `action="store_true"`. -/
  store_true : Bool
  help : String
deriving DecidableEq

/-- `pytest_addoption` (testing.py lines 21-27): the options it registers. -/
def pytest_addoption : List PytestOption :=
  [{ name := "--local-cache", store_true := true,
     help := "Use existing local cache files in tests" }]

/-- The fields of the session `Context` assigned during `session_context` setup. -/
structure SessionContextFields where
  cache_path : FsPath
  local_data : FsPath
  platform_info_name : String
deriving DecidableEq

/-- `session_context` setup (testing.py lines 45-75) as a function of the
`--local-cache` flag, the user's pre-existing `local_data` and the fresh session
temporary directory: the cache path is chosen under `local_data` when the flag is set,
else under the temporary directory, in both cases joined with `"cache"`; then
`local_data` itself is pointed at the temporary directory and the platform name is
recorded in `platform_info`. -/
def session_context_fields (local_cache : Bool) (user_local_data session_tmp_dir : FsPath) :
    SessionContextFields :=
  { cache_path :=
      joinpath (if local_cache then user_local_data else session_tmp_dir) ["cache"],
    local_data := session_tmp_dir,
    platform_info_name := platform_name }

/-- Claim C6: `--local-cache` is registered as a boolean (`store_true`) pytest option,
and session setup puts the cache under the user's existing local-data directory when
the flag is given and under the fresh session temporary directory otherwise, in both
cases joined with `"cache"`. -/
theorem local_cache_option_spec (user_local_data session_tmp_dir : FsPath) :
    pytest_addoption =
      [{ name := "--local-cache", store_true := true,
         help := "Use existing local cache files in tests" }] ∧
    (session_context_fields true user_local_data session_tmp_dir).cache_path =
      user_local_data ++ ["cache"] ∧
    (session_context_fields false user_local_data session_tmp_dir).cache_path =
      session_tmp_dir ++ ["cache"] := by
  exact ⟨rfl, rfl, rfl⟩

/-- Modelled from the spec: the `Context` class (`message_ix_models.util.context`,
whose source is not under `src/`; only its tests are) is a mapping from option name to
value with attribute-style access, plus the named path field `local_data`.  The mapping
is an association list in which the most recent binding of a key shadows older ones. -/
structure Context (α : Type) where
  entries : List (String × α)
  local_data : FsPath
deriving DecidableEq

/-- The value stored under `k`, if any. -/
def Context.get (ctx : Context α) (k : String) : Option α :=
  ctx.entries.lookup k

/-- Store `v` under `k`, shadowing any previous binding. -/
def Context.set (ctx : Context α) (k : String) (v : α) : Context α :=
  { ctx with entries := (k, v) :: ctx.entries }

/-- Modelled from the spec: `setdefault(key, default)` stores `default` and returns it
when `key` is unset, and otherwise returns the existing value, never raising and never
overwriting.  Returns the value together with the (possibly updated) context. -/
def Context.setdefault (ctx : Context α) (k : String) (v : α) : α × Context α :=
  match ctx.get k with
  | some w => (w, ctx)
  | none => (v, ctx.set k v)

/-- Modelled from the spec: attribute-style access returns the stored value, and fails
with `AttributeError` when the key was never set; there is no implicit default. -/
def Context.attr (ctx : Context α) (k : String) : Except String α :=
  match ctx.get k with
  | none => Except.error "AttributeError"
  | some v => Except.ok v

/-- Modelled from the spec: `get_cache_path(*parts)` returns
`local_data / "cache" / *parts`, a pure path join over the current field values with
no I/O. -/
def Context.get_cache_path (ctx : Context α) (parts : List String) : FsPath :=
  joinpath ctx.local_data ("cache" :: parts)

/-- Claim C7: on an unset key, `setdefault k v1` returns `v1` (without raising) and
stores it; a subsequent `setdefault k v2` returns the stored `v1`, not `v2`, and leaves
the context unchanged; and on any context where `k` holds `w`, `setdefault` returns `w`
and never overwrites it. -/
theorem setdefault_spec (ctx c : Context α) (k : String) (v1 v2 w : α)
    (h : ctx.get k = none) (hw : c.get k = some w) :
    (ctx.setdefault k v1).1 = v1 ∧
    (ctx.setdefault k v1).2.get k = some v1 ∧
    ((ctx.setdefault k v1).2.setdefault k v2).1 = v1 ∧
    ((ctx.setdefault k v1).2.setdefault k v2).2 = (ctx.setdefault k v1).2 ∧
    (c.setdefault k v2).1 = w ∧
    (c.setdefault k v2).2 = c := by
  have hget : (ctx.set k v1).get k = some v1 := by
    simp [Context.get, Context.set, List.lookup]
  have hstep : ctx.setdefault k v1 = (v1, ctx.set k v1) := by
    simp [Context.setdefault, h]
  have hstep2 : (ctx.set k v1).setdefault k v2 = (v1, ctx.set k v1) := by
    simp [Context.setdefault, hget]
  have hstepc : c.setdefault k v2 = (w, c) := by
    simp [Context.setdefault, hw]
  rw [hstep, hstep2, hstepc]
  exact ⟨rfl, hget, rfl, rfl, rfl, rfl⟩

/-- Concrete instance discharging the hypotheses of `setdefault_spec`, mirroring
`TestContext.test_default_value`: key `"foo"`, defaults `23` then `45`. -/
theorem setdefault_spec_witness :
    (Context.setdefault (⟨[], []⟩ : Context Nat) "foo" 23).1 = 23 ∧
    (Context.setdefault (⟨[], []⟩ : Context Nat) "foo" 23).2.get "foo" = some 23 ∧
    ((Context.setdefault (⟨[], []⟩ : Context Nat) "foo" 23).2.setdefault "foo" 45).1 = 23 ∧
    ((Context.setdefault (⟨[], []⟩ : Context Nat) "foo" 23).2.setdefault "foo" 45).2 =
      (Context.setdefault (⟨[], []⟩ : Context Nat) "foo" 23).2 ∧
    (Context.setdefault (⟨[("foo", 23)], []⟩ : Context Nat) "foo" 45).1 = 23 ∧
    (Context.setdefault (⟨[("foo", 23)], []⟩ : Context Nat) "foo" 45).2 =
      (⟨[("foo", 23)], []⟩ : Context Nat) :=
  setdefault_spec ⟨[], []⟩ ⟨[("foo", 23)], []⟩ "foo" 23 45 23 (by decide) (by decide)

/-- Claim C8: attribute-style access on a key that was never set always fails with
`AttributeError` and never produces a value. -/
theorem attr_unset_raises (ctx : Context α) (k : String) (h : ctx.get k = none) :
    ctx.attr k = Except.error "AttributeError" := by
  simp [Context.attr, h]

/-- Concrete instance discharging the hypothesis of `attr_unset_raises`, mirroring
`TestContext.test_default_value`: accessing `"foo"` on a fresh context. -/
theorem attr_unset_raises_witness :
    Context.attr (⟨[], []⟩ : Context Nat) "foo" = Except.error "AttributeError" :=
  attr_unset_raises ⟨[], []⟩ "foo" (by decide)

/-- Claim C5: `get_cache_path(*parts)` is `local_data ++ ["cache"] ++ parts` for every
value of `local_data` and every sequence of parts, a pure function of the fields; in
particular `get_cache_path("pytest", "bar.pkl")` is
`local_data / "cache" / "pytest" / "bar.pkl"`, the equation checked by
`TestContext.test_get_cache_path`. -/
theorem get_cache_path_spec (ctx : Context α) (parts : List String) :
    ctx.get_cache_path parts = ctx.local_data ++ ["cache"] ++ parts ∧
    ctx.get_cache_path ["pytest", "bar.pkl"] =
      joinpath ctx.local_data ["cache", "pytest", "bar.pkl"] := by
  constructor
  · simp [Context.get_cache_path, joinpath]
  · rfl

/-- A scenario as stored on the platform: its identity and whether it carries a stored
solution. -/
structure ScenRecord where
  model : String
  scenario : String
  has_solution : Bool
deriving DecidableEq

/-- The scenarios present on a platform. -/
abbrev PlatformDB := List ScenRecord

/-- `message_ix.Scenario(mp, model, scenario)` as a lookup: `none` models the
`ValueError` raised when the scenario does not exist. -/
def lookupScenario (db : PlatformDB) (model scenario : String) : Option ScenRecord :=
  db.find? (fun r => r.model == model && r.scenario == scenario)

/-- External calls made by `bare_res`, in order. -/
inductive BareResEvent where
  /-- `bare.create_res(context)` building the named scenario afresh. -/
  | create (model scenario : String)
  /-- `base.solve(solve_options=dict(lpmethod=n), quiet=q)`. -/
  | solve (lpmethod : Nat) (quiet : Bool)
  /-- `base.clone(scenario=name, keep_solution=keep)`. -/
  | clone (model scenario : String) (keep_solution : Bool)
deriving DecidableEq

/-- `bare_res` (testing.py lines 153-206).  `name` stands for `bare.name(context)` and
`db` for the platform returned by `context.get_platform()`; `req_node_name` is
`request.node.name` when the request carries one (its absence raises the
`AttributeError` handled on lines 200-203).  Looks up `(name, "baseline")`, creating it
on a `ValueError`; solves it with `lpmethod=4, quiet=True` when a solved scenario is
requested and none is stored; clones under the test node name (or `"baseline"`) with
`keep_solution=solved`.  Returns the clone and the trace of external calls. -/
def bare_res (req_node_name : Option String) (name : String) (db : PlatformDB)
    (solved : Bool) : ScenRecord × List BareResEvent :=
  let found := lookupScenario db name "baseline"
  let base : ScenRecord := match found with
    | some b => b
    | none => { model := name, scenario := "baseline", has_solution := false }
  let ev1 : List BareResEvent := match found with
    | some _ => []
    | none => [.create name "baseline"]
  let base2 : ScenRecord :=
    if solved && !base.has_solution then { base with has_solution := true } else base
  let ev2 : List BareResEvent :=
    if solved && !base.has_solution then ev1 ++ [.solve 4 true] else ev1
  let new_name := req_node_name.getD "baseline"
  let cloned : ScenRecord :=
    { model := base2.model, scenario := new_name,
      has_solution := base2.has_solution && solved }
  (cloned, ev2 ++ [.clone base2.model new_name solved])

/-- Claim C4: `bare_res` returns a clone of the `"baseline"` scenario under the derived
model name, named after the test node (or `"baseline"` without one); it creates the
base exactly when the lookup fails; it solves with `lpmethod=4` and quiet solver output
exactly when a solved scenario is requested and the base has no stored solution; and
the clone carries a solution exactly when `solved` is true. -/
theorem bare_res_spec (req_node_name : Option String) (name : String) (db : PlatformDB)
    (solved : Bool) :
    (bare_res req_node_name name db solved).1.model = name ∧
    (bare_res req_node_name name db solved).1.scenario =
      req_node_name.getD "baseline" ∧
    (bare_res req_node_name name db solved).1.has_solution = solved ∧
    (BareResEvent.create name "baseline" ∈ (bare_res req_node_name name db solved).2 ↔
      lookupScenario db name "baseline" = none) ∧
    (BareResEvent.solve 4 true ∈ (bare_res req_node_name name db solved).2 ↔
      solved = true ∧
        (match lookupScenario db name "baseline" with
          | some b => b.has_solution = false
          | none => True)) ∧
    BareResEvent.clone name (req_node_name.getD "baseline") solved ∈
      (bare_res req_node_name name db solved).2 := by
  cases hdb : lookupScenario db name "baseline" with
  | none =>
    cases solved <;> simp [bare_res, hdb]
  | some b =>
    have hmodel : b.model = name := by
      have := List.find?_some hdb
      simpa [lookupScenario] using (Bool.and_elim_left this)
    cases solved <;> cases hb : b.has_solution <;>
      simp [bare_res, hdb, hb, hmodel]

/-- Whether the first list occurs at the start of the second (over character lists). -/
def listStartsWith : List Char → List Char → Bool
  | [], _ => true
  | _ :: _, [] => false
  | a :: as, b :: bs => a == b && listStartsWith as bs

/-- Whether `needle` occurs contiguously anywhere in the second list. -/
def listHasSub (needle : List Char) : List Char → Bool
  | [] => listStartsWith needle []
  | b :: bs => listStartsWith needle (b :: bs) || listHasSub needle bs

/-- Python's `needle in hay` on strings: substring containment. -/
def strContains (hay needle : String) : Bool :=
  listHasSub needle.data hay.data

/-- `export_test_data` (testing.py lines 215-221): the fixed source scenario and
filter values. -/
def src_model : String := "ENGAGE_SSP2_v4.1.7"

/-- The fixed source scenario name. -/
def src_scenario : String := "baseline"

/-- The technology whose data is exported. -/
def technology : String := "coal_ppl"

/-- The target node set. -/
def nodes : List String := ["R11_AFR", "R11_CPA"]

/-- The single file path used both for `scen.to_excel`, `pd.ExcelFile` and
`pd.ExcelWriter` (testing.py lines 221, 224, 237, 241). -/
def dest_file : String :=
  src_model ++ "_" ++ src_scenario ++ "_" ++ technology ++ ".xlsx"

/-- The `filters` argument of `scen.to_excel` (testing.py lines 226-232); the
`technology` filter is the single fixed technology, the node-like filters the fixed
node list. -/
def export_filters : List (String × List String) :=
  [("technology", [technology]), ("node", nodes), ("node_dest", nodes),
   ("node_loc", nodes), ("node_origin", nodes)]

/-- The sheet-name exclusion list (testing.py lines 242-262). -/
def remove : List String :=
  ["land", "mapping_macro_sector", "sector", "MERtoPPP", "aeei", "cost_MESSAGE",
   "demand", "demand_MESSAGE", "depr", "esub", "grow", "historical_gdp", "kgdp",
   "lotol", "prfconst", "kpvs", "lakl", "price_MESSAGE", "gdp_calibrate"]

/-- `any(i in s for i in remove)`: whether `s` contains one of the excluded names as
a substring. -/
def containsAnyRemove (s : String) : Bool :=
  remove.any (fun i => strContains s i)

/-- A spreadsheet row: column name to cell value. -/
abbrev Row := List (String × String)

/-- The value of a column in a row (pandas column access). -/
def cell (r : Row) (col : String) : String :=
  (r.lookup col).getD ""

/-- A spreadsheet sheet: its name and rows. -/
structure Sheet where
  name : String
  rows : List Row
deriving DecidableEq

/-- The scenario metadata consulted during post-processing: `scen.par_list()` and
`scen.idx_names(sheet)`. -/
structure ScenMeta where
  par_list : List String
  idx_names : String → List String

/-- The item names of the original `ix_type_mapping` sheet (`df2.item.tolist()`) that
contain no excluded name (testing.py line 270). -/
def cleanItems (rows : List Row) : List String :=
  (rows.map (fun r => cell r "item")).filter (fun i => !containsAnyRemove i)

/-- The `ix_type_mapping` row filter (testing.py lines 266-272): keep the rows whose
`item` is among the clean items of the original sheet. -/
def filterIxTypeMapping (rows : List Row) : List Row :=
  rows.filter (fun r => decide (cell r "item" ∈ cleanItems rows))

/-- The parameter-sheet row filter (testing.py lines 276-279): take the index names of
the sheet that contain `"node"`; when there is one, keep the rows whose value in the
first such column is in the target node set. -/
def filterParamSheet (meta : ScenMeta) (sheetName : String) (rows : List Row) :
    List Row :=
  match (meta.idx_names sheetName).filter (fun i => strContains i "node") with
  | [] => rows
  | idx :: _ => rows.filter (fun r => decide (cell r idx ∈ nodes))

/-- The post-processing loop of `export_test_data` (testing.py lines 264-281): drop
every sheet whose name contains an excluded name; filter the `ix_type_mapping` rows by
item name; filter the rows of recognized parameter sheets by their node-like column;
leave other sheets unchanged. -/
def export_post_process (meta : ScenMeta) (book : List Sheet) : List Sheet :=
  (book.filter (fun s => !containsAnyRemove s.name)).map (fun s =>
    if s.name = "ix_type_mapping" then
      { s with rows := filterIxTypeMapping s.rows }
    else if s.name ∈ meta.par_list then
      { s with rows := filterParamSheet meta s.name s.rows }
    else s)

/-- Rows surviving the `ix_type_mapping` filter have an item free of excluded names. -/
theorem mem_filterIxTypeMapping {rows : List Row} {r : Row}
    (h : r ∈ filterIxTypeMapping rows) :
    containsAnyRemove (cell r "item") = false := by
  have h2 := (List.mem_filter.mp h).2
  have h3 := of_decide_eq_true h2
  have h4 := (List.mem_filter.mp h3).2
  simpa using h4

/-- Rows surviving a parameter-sheet filter with a node-like column lie in the target
node set. -/
theorem mem_filterParamSheet {meta : ScenMeta} {n : String} {rows : List Row} {r : Row}
    {idx : String} {rest : List String}
    (hidx : (meta.idx_names n).filter (fun i => strContains i "node") = idx :: rest)
    (h : r ∈ filterParamSheet meta n rows) :
    cell r idx ∈ nodes := by
  rw [filterParamSheet, hidx] at h
  exact of_decide_eq_true (List.mem_filter.mp h).2

/-- Claim C9: `export_test_data` reads the fixed source scenario, exports through the
fixed technology/node filters to a single file path that is also the one written back,
and post-processes so that every surviving sheet comes from the exported book and has a
name free of the exclusion list, the `ix_type_mapping` rows all have item names free of
the exclusion list, and the rows of a recognized parameter sheet with a node-like index
column all lie in the target node set. -/
theorem export_test_data_spec (meta : ScenMeta) (book : List Sheet) (s : Sheet)
    (r : Row) (idx : String) (rest : List String)
    (hs : s ∈ export_post_process meta book) (hr : r ∈ s.rows) :
    dest_file = "ENGAGE_SSP2_v4.1.7_baseline_coal_ppl.xlsx" ∧
    export_filters =
      [("technology", ["coal_ppl"]), ("node", ["R11_AFR", "R11_CPA"]),
       ("node_dest", ["R11_AFR", "R11_CPA"]), ("node_loc", ["R11_AFR", "R11_CPA"]),
       ("node_origin", ["R11_AFR", "R11_CPA"])] ∧
    containsAnyRemove s.name = false ∧
    (s.name = "ix_type_mapping" → containsAnyRemove (cell r "item") = false) ∧
    (s.name ≠ "ix_type_mapping" → s.name ∈ meta.par_list →
      (meta.idx_names s.name).filter (fun i => strContains i "node") = idx :: rest →
      cell r idx ∈ nodes) ∧
    s.name ∈ book.map Sheet.name := by
  simp only [export_post_process, List.mem_map, List.mem_filter] at hs
  obtain ⟨s0, ⟨hmem, hclean⟩, heq⟩ := hs
  have hcleanf : containsAnyRemove s0.name = false := by
    simpa using hclean
  have hname : s.name = s0.name := by
    by_cases h1 : s0.name = "ix_type_mapping"
    · simp [← heq, h1]
    · by_cases h2 : s0.name ∈ meta.par_list <;> simp [← heq, h1, h2]
  refine ⟨rfl, rfl, ?_, ?_, ?_, ?_⟩
  · rw [hname]; exact hcleanf
  · intro hix
    have h1 : s0.name = "ix_type_mapping" := by rw [← hname]; exact hix
    have hrows : s.rows = filterIxTypeMapping s0.rows := by
      simp [← heq, h1]
    exact mem_filterIxTypeMapping (hrows ▸ hr)
  · intro hne hpar hidx
    have h1 : s0.name ≠ "ix_type_mapping" := by rw [← hname]; exact hne
    have h2 : s0.name ∈ meta.par_list := by rw [← hname]; exact hpar
    have hrows : s.rows = filterParamSheet meta s0.name s0.rows := by
      simp [← heq, h1, h2]
    have hidx0 :
        (meta.idx_names s0.name).filter (fun i => strContains i "node") =
          idx :: rest := by
      rw [← hname]; exact hidx
    exact mem_filterParamSheet hidx0 (hrows ▸ hr)
  · rw [hname]
    exact List.mem_map.mpr ⟨s0, hmem, rfl⟩

/-- Sample scenario metadata: one parameter table `"output"` with a node-like first
index column. -/
def metaSample : ScenMeta :=
  { par_list := ["output"],
    idx_names := fun n => if n = "output" then ["node_loc", "technology"] else [] }

/-- Sample exported book: the mapping sheet, a parameter sheet and an excluded sheet. -/
def bookSample : List Sheet :=
  [{ name := "ix_type_mapping",
     rows := [[("item", "CAP")], [("item", "demand_fixed")]] },
   { name := "output",
     rows := [[("node_loc", "R11_AFR")], [("node_loc", "R11_PAO")]] },
   { name := "land_output", rows := [] }]

/-- The surviving parameter sheet of `bookSample`. -/
def sheetSample : Sheet :=
  { name := "output", rows := [[("node_loc", "R11_AFR")]] }

/-- The surviving row of `sheetSample`. -/
def rowSample : Row := [("node_loc", "R11_AFR")]

/-- Concrete instance discharging the hypotheses of `export_test_data_spec`. -/
theorem export_test_data_spec_witness :
    dest_file = "ENGAGE_SSP2_v4.1.7_baseline_coal_ppl.xlsx" ∧
    export_filters =
      [("technology", ["coal_ppl"]), ("node", ["R11_AFR", "R11_CPA"]),
       ("node_dest", ["R11_AFR", "R11_CPA"]), ("node_loc", ["R11_AFR", "R11_CPA"]),
       ("node_origin", ["R11_AFR", "R11_CPA"])] ∧
    containsAnyRemove sheetSample.name = false ∧
    (sheetSample.name = "ix_type_mapping" →
      containsAnyRemove (cell rowSample "item") = false) ∧
    (sheetSample.name ≠ "ix_type_mapping" → sheetSample.name ∈ metaSample.par_list →
      (metaSample.idx_names sheetSample.name).filter (fun i => strContains i "node") =
        "node_loc" :: [] →
      cell rowSample "node_loc" ∈ nodes) ∧
    sheetSample.name ∈ bookSample.map Sheet.name :=
  export_test_data_spec metaSample bookSample sheetSample rowSample "node_loc" []
    (by decide) (by decide)
